import Mathlib

/-! dynamic_memory: the allocation hook and the scoped tracker

Shallow embedding of `src/dynamic_memory/main.cpp`: the three process-wide
atomics, the two replaced `operator new` entry points,
`reset_allocation_statistics`, and the constructor and destructor of
`AllocationTracker`.

* The atomics are fields of `World`; every atomic access is one state update.
* `std::size_t` is taken to be 64 bits wide: `+=` and `++` wrap modulo `2 ^ 64`.
* `std::cout` and `std::cerr` are the lists of lines written so far.
* `malloc` is recorded as the list of sizes forwarded to it.
* `std::terminate` ends the run: `Result.terminated`.
-/

namespace DynamicMemory

/-- Number of values of `std::size_t` (64-bit target). -/
def SIZE_MOD : Nat := 2 ^ 64

/-- Process state: the globals of the anonymous namespace (main.cpp 15-17)
together with the two output streams and the calls forwarded to `malloc`. -/
structure World where
  g_tracking : Bool
  g_allocated_bytes : Nat
  g_number_of_allocations : Nat
  cout : List String
  cerr : List String
  malloc_calls : List Nat
deriving DecidableEq

/-- State at process start: `g_tracking{false}`, both counters `{0}`. -/
def World.initial : World :=
  { g_tracking := false, g_allocated_bytes := 0, g_number_of_allocations := 0,
    cout := [], cerr := [], malloc_calls := [] }

/-- Outcome of a call that may end in `std::terminate`. -/
inductive Result (α : Type) where
  | returned (a : α) (w : World)
  | terminated (w : World)
deriving DecidableEq

/-- Atomic `g_allocated_bytes += count` (main.cpp 26). -/
def add_allocated_bytes (count : Nat) (w : World) : World :=
  { w with g_allocated_bytes := (w.g_allocated_bytes + count) % SIZE_MOD }

/-- Atomic `g_number_of_allocations++` (main.cpp 27). -/
def incr_number_of_allocations (w : World) : World :=
  { w with g_number_of_allocations := (w.g_number_of_allocations + 1) % SIZE_MOD }

/-- The call `malloc(count)` (main.cpp 29): the request is forwarded. -/
def malloc (count : Nat) (w : World) : World :=
  { w with malloc_calls := w.malloc_calls ++ [count] }

/-- Replaced `operator new(std::size_t count)` (main.cpp 21-30). -/
def operator_new (count : Nat) (w : World) : World :=
  if w.g_tracking then
    malloc count (incr_number_of_allocations (add_allocated_bytes count w))
  else
    malloc count w

/-- Replaced `operator new(std::size_t count, std::align_val_t al)` (main.cpp 32-37):
writes to `std::cerr` and calls `std::terminate`. -/
def operator_new_aligned (_count : Nat) (_al : Nat) (w : World) : Result Unit :=
  .terminated { w with cerr := w.cerr ++
    ["Still not implemented the forwarding of new with alignment constraints to malloc"] }

/-- Store `g_allocated_bytes = 0` (main.cpp 41). -/
def store_allocated_bytes_zero (w : World) : World :=
  { w with g_allocated_bytes := 0 }

/-- Store `g_number_of_allocations = 0` (main.cpp 42). -/
def store_number_of_allocations_zero (w : World) : World :=
  { w with g_number_of_allocations := 0 }

/-- Function `reset_allocation_statistics` (main.cpp 39-43). -/
def reset_allocation_statistics (w : World) : World :=
  store_number_of_allocations_zero (store_allocated_bytes_zero w)

/-- Store to `g_tracking` (main.cpp 72 and 91). -/
def store_tracking (b : Bool) (w : World) : World :=
  { w with g_tracking := b }

/-- The class `AllocationTracker` (main.cpp 61-96): its only member is the label. -/
structure AllocationTracker where
  m_message : String
deriving DecidableEq

/-- Constructor `AllocationTracker(std::string_view message)` (main.cpp 64-73),
the Start operation of a session. -/
def AllocationTracker.ctor (message : String) (w : World) : Result AllocationTracker :=
  let w1 := reset_allocation_statistics w
  if w1.g_tracking then
    .terminated { w1 with cerr := w1.cerr ++ ["Nested tracking not supported"] }
  else
    .returned { m_message := message } (store_tracking true w1)

/-- Requests that reach `operator new(std::size_t)` one after the other. -/
def intercept_all (sizes : List Nat) (w : World) : World :=
  sizes.foldl (fun acc count => operator_new count acc) w

/-- Lines the destructor writes to `std::cout` (main.cpp 81-88) for the label and
the two local copies of the counters. -/
def report_lines (m_message : String) (number_of_allocations allocated_bytes : Nat) :
    List String :=
  let allocation_type := if number_of_allocations > 0 then "dynamic" else "static"
  [m_message, "  - Allocation type: " ++ allocation_type] ++
    (if number_of_allocations > 0 then
      ["  - Number of allocations: " ++ toString number_of_allocations,
       "  - Allocated bytes: " ++ toString allocated_bytes]
     else [])

/-- The reporting statements of the destructor (main.cpp 81-88). `during_report`
lists the sizes of the requests that reach `operator new(std::size_t)` while the
stream insertions run. -/
def emit_report (m_message : String) (number_of_allocations allocated_bytes : Nat)
    (during_report : List Nat) (w : World) : World :=
  let w1 := intercept_all during_report w
  { w1 with cout := w1.cout ++ report_lines m_message number_of_allocations allocated_bytes }

/-- Destructor `~AllocationTracker()` (main.cpp 74-92), the Stop operation of a
session. -/
def AllocationTracker.dtor (self : AllocationTracker) (during_report : List Nat)
    (w : World) : World :=
  let number_of_allocations := w.g_number_of_allocations
  let allocated_bytes := w.g_allocated_bytes
  let w1 := emit_report self.m_message number_of_allocations allocated_bytes during_report w
  let w2 := reset_allocation_statistics w1
  store_tracking false w2

/-! ## Statement-level traces

The same functions, one state per executed statement, so that the order of the
statements and the states in between can be talked about. -/

/-- States after each statement of `operator new(std::size_t)`. -/
def operator_new_steps (count : Nat) (w : World) : List World :=
  if w.g_tracking then
    let w1 := add_allocated_bytes count w
    let w2 := incr_number_of_allocations w1
    [w1, w2, malloc count w2]
  else
    [malloc count w]

/-- States passed through while a list of requests is intercepted. -/
def intercept_all_steps : List Nat → World → List World
  | [], _ => []
  | count :: rest, w => operator_new_steps count w ++ intercept_all_steps rest (operator_new count w)

/-- States after each statement of the constructor; the last one is the state
in which it returns or terminates. -/
def AllocationTracker.ctor_steps (w : World) : List World :=
  let w1 := store_allocated_bytes_zero w
  let w2 := store_number_of_allocations_zero w1
  if w2.g_tracking then
    [w1, w2, { w2 with cerr := w2.cerr ++ ["Nested tracking not supported"] }]
  else
    [w1, w2, store_tracking true w2]

/-- The statements of the destructor that touch the shared state or the stream. -/
inductive DtorStep where
  | load_number_of_allocations
  | load_allocated_bytes
  | write_report
  | store_allocated_bytes
  | store_number_of_allocations
  | store_tracking
deriving DecidableEq

/-- The destructor statement by statement (main.cpp 78, 79, 81-88, 41, 42, 91):
each statement with the state right after it. -/
def AllocationTracker.dtor_trace (self : AllocationTracker) (during_report : List Nat)
    (w : World) : List (DtorStep × World) :=
  let number_of_allocations := w.g_number_of_allocations
  let allocated_bytes := w.g_allocated_bytes
  let w1 := emit_report self.m_message number_of_allocations allocated_bytes during_report w
  let w2 := store_allocated_bytes_zero w1
  let w3 := store_number_of_allocations_zero w2
  let w4 := store_tracking false w3
  [(.load_number_of_allocations, w), (.load_allocated_bytes, w), (.write_report, w1),
   (.store_allocated_bytes, w2), (.store_number_of_allocations, w3), (.store_tracking, w4)]

/-- All states the destructor passes through, those inside the requests
intercepted during reporting included. -/
def AllocationTracker.dtor_steps (self : AllocationTracker) (during_report : List Nat)
    (w : World) : List World :=
  intercept_all_steps during_report w ++ (self.dtor_trace during_report w).map Prod.snd

/-! ## Sequences of operations -/

/-- One operation on the shared state: a session start, a plain allocation
request, or the end of the session of `self`. -/
inductive Op where
  | Start (label : String)
  | Intercept (count : Nat)
  | Stop (self : AllocationTracker) (during_report : List Nat)
deriving DecidableEq

/-- States passed through, statement by statement, while the operations run one
after the other. Nothing runs after `std::terminate`. -/
def visited : World → List Op → List World
  | _, [] => []
  | w, .Start label :: ops =>
    AllocationTracker.ctor_steps w ++
      (match AllocationTracker.ctor label w with
       | .returned _ w1 => visited w1 ops
       | .terminated _ => [])
  | w, .Intercept count :: ops =>
    operator_new_steps count w ++ visited (operator_new count w) ops
  | w, .Stop self during_report :: ops =>
    self.dtor_steps during_report w ++ visited (self.dtor during_report w) ops

/-- A destructor only runs for a tracker that was constructed: every `Stop` of
the sequence is reached with `g_tracking` set. -/
def admissible : World → List Op → Bool
  | _, [] => true
  | w, .Start label :: ops =>
    (match AllocationTracker.ctor label w with
     | .returned _ w1 => admissible w1 ops
     | .terminated _ => true)
  | w, .Intercept count :: ops => admissible (operator_new count w) ops
  | w, .Stop self during_report :: ops =>
    w.g_tracking && admissible (self.dtor during_report w) ops

/-! ## A tracked block

`{ AllocationTracker tracker{label}; body }` as in `main` (main.cpp 106-214). -/

/-- A block whose first statement declares the tracker. The body either falls
through (`none`) or leaves the block with an exception (`some e`); `handled e`
tells whether a handler for `e` encloses the block. On fall-through, and when the
exception has a handler, the tracker is destroyed as the block is left and the
exception, if any, travels on. An exception without a handler ends in
`std::terminate`; whether the stack is unwound first is implementation-defined,
and as on the usual C++ runtimes it is not: the destructor does not run.
Nothing is destroyed either when the constructor terminates the process. -/
def tracked_scope {ε : Type} (label : String) (body : World → World × Option ε)
    (handled : ε → Bool) (during_report : List Nat) (w : World) : Result (Option ε) :=
  match AllocationTracker.ctor label w with
  | .terminated w1 => .terminated w1
  | .returned tracker w1 =>
    let r := body w1
    match r.2 with
    | none => .returned none (tracker.dtor during_report r.1)
    | some e =>
      if handled e then
        .returned (some e) (tracker.dtor during_report r.1)
      else
        .terminated r.1

/-- A body that makes the given allocation requests and falls through. -/
def allocating_body (sizes : List Nat) (w : World) : World × Option Unit :=
  (intercept_all sizes w, none)

/-! ## Two threads

Each thread runs `operator new(std::size_t)` for its requests; the atomic
accesses of the two threads interleave in any order. -/

/-- What is left of a call of `operator new(std::size_t)` once `g_tracking` has
been read. -/
inductive Instr where
  | add_bytes (count : Nat)
  | incr_count
  | call_malloc (count : Nat)
deriving DecidableEq

/-- A thread: the rest of the call it is in, and the requests it has not begun. -/
structure Thread where
  current : List Instr
  pending : List Nat
deriving DecidableEq

/-- A thread about to make the given requests. -/
def Thread.of_requests (sizes : List Nat) : Thread :=
  { current := [], pending := sizes }

/-- The thread has returned from its last call. -/
def Thread.finished (t : Thread) : Bool :=
  t.current.isEmpty && t.pending.isEmpty

/-- One atomic step of a thread. Between calls the step is the load of
`g_tracking` at main.cpp 23, which decides what the call does next. -/
def Thread.step (t : Thread) (w : World) : Thread × World :=
  match t.current with
  | .add_bytes count :: rest => ({ t with current := rest }, add_allocated_bytes count w)
  | .incr_count :: rest => ({ t with current := rest }, incr_number_of_allocations w)
  | .call_malloc count :: rest => ({ t with current := rest }, malloc count w)
  | [] =>
    match t.pending with
    | [] => (t, w)
    | count :: rest =>
      if w.g_tracking then
        ({ current := [.add_bytes count, .incr_count, .call_malloc count], pending := rest }, w)
      else
        ({ current := [.call_malloc count], pending := rest }, w)

/-- Two threads and the shared state. -/
structure Threads where
  main : Thread
  spawned : Thread
  world : World
deriving DecidableEq

/-- Runs a schedule: `false` lets the main thread take a step, `true` the
spawned one. -/
def run_schedule : List Bool → Threads → Threads
  | [], s => s
  | false :: rest, s =>
    let r := s.main.step s.world
    run_schedule rest { s with main := r.1, world := r.2 }
  | true :: rest, s =>
    let r := s.spawned.step s.world
    run_schedule rest { s with spawned := r.1, world := r.2 }

/-- A session around two threads: the tracker is constructed, the threads run
under the schedule, and the tracker is destroyed. The result is `none` when a
thread has not finished by the end of the schedule (the session only ends after
the join). -/
def concurrent_session (label : String) (s1 s2 : List Nat) (schedule : List Bool)
    (during_report : List Nat) (w : World) : Option (Result Unit) :=
  match AllocationTracker.ctor label w with
  | .terminated w1 => some (.terminated w1)
  | .returned tracker w1 =>
    let s := run_schedule schedule
      { main := Thread.of_requests s2, spawned := Thread.of_requests s1, world := w1 }
    if s.main.finished && s.spawned.finished then
      some (.returned () (tracker.dtor during_report s.world))
    else
      none

/-- The state a finished run leaves behind. -/
def Result.world {α : Type} : Result α → World
  | .returned _ w => w
  | .terminated w => w

/-- The state right after the given statement of a destructor trace. -/
def state_after (step : DtorStep) (trace : List (DtorStep × World)) : Option World :=
  (trace.find? (fun p => decide (p.1 = step))).map Prod.snd

/-- While nothing is being tracked both counters are zero. -/
def idle_invariant (w : World) : Prop :=
  w.g_tracking = false → w.g_allocated_bytes = 0 ∧ w.g_number_of_allocations = 0

/-- Bytes a thread has still to add to `g_allocated_bytes`, given that
`g_tracking` stays set. -/
def Thread.bytes_left (t : Thread) : Nat :=
  (t.current.map (fun i => match i with
    | .add_bytes count => count
    | _ => 0)).sum + t.pending.sum

/-- Increments of `g_number_of_allocations` a thread has still to make, given
that `g_tracking` stays set. -/
def Thread.count_left (t : Thread) : Nat :=
  (t.current.map (fun i => match i with
    | .incr_count => 1
    | _ => 0)).sum + t.pending.length

/-! ## Basic facts about intercepted requests -/

theorem intercept_all_cons (count : Nat) (rest : List Nat) (w : World) :
    intercept_all (count :: rest) w = intercept_all rest (operator_new count w) := rfl

theorem intercept_all_idle (sizes : List Nat) (w : World) (hidle : w.g_tracking = false) :
    intercept_all sizes w = { w with malloc_calls := w.malloc_calls ++ sizes } := by
  induction sizes generalizing w with
  | nil => simp [intercept_all]
  | cons count rest ih =>
    rw [intercept_all_cons, ih]
    · simp [operator_new, hidle, malloc]
    · simp [operator_new, hidle, malloc]

theorem intercept_all_tracking (sizes : List Nat) (w : World) (hlive : w.g_tracking = true)
    (hb : w.g_allocated_bytes < SIZE_MOD) (hn : w.g_number_of_allocations < SIZE_MOD) :
    intercept_all sizes w =
      { w with
        g_allocated_bytes := (w.g_allocated_bytes + sizes.sum) % SIZE_MOD
        g_number_of_allocations := (w.g_number_of_allocations + sizes.length) % SIZE_MOD
        malloc_calls := w.malloc_calls ++ sizes } := by
  induction sizes generalizing w with
  | nil => simp [intercept_all, Nat.mod_eq_of_lt hb, Nat.mod_eq_of_lt hn]
  | cons count rest ih =>
    have hpos : 0 < SIZE_MOD := by simp [SIZE_MOD]
    rw [intercept_all_cons, ih]
    · simp [operator_new, hlive, malloc, incr_number_of_allocations, add_allocated_bytes,
        Nat.add_assoc, Nat.add_comm 1]
    · simp [operator_new, hlive, malloc, incr_number_of_allocations, add_allocated_bytes]
    · simpa [operator_new, hlive, malloc, incr_number_of_allocations, add_allocated_bytes]
        using Nat.mod_lt _ hpos
    · simpa [operator_new, hlive, malloc, incr_number_of_allocations, add_allocated_bytes]
        using Nat.mod_lt _ hpos

theorem intercept_all_cout (sizes : List Nat) (w : World) :
    (intercept_all sizes w).cout = w.cout := by
  induction sizes generalizing w with
  | nil => rfl
  | cons count rest ih =>
    rw [intercept_all_cons, ih]
    unfold operator_new
    split <;> rfl

theorem intercept_all_g_tracking (sizes : List Nat) (w : World) :
    (intercept_all sizes w).g_tracking = w.g_tracking := by
  induction sizes generalizing w with
  | nil => rfl
  | cons count rest ih =>
    rw [intercept_all_cons, ih]
    unfold operator_new
    split <;> rfl

theorem dtor_cout (self : AllocationTracker) (during_report : List Nat) (w : World) :
    (self.dtor during_report w).cout =
      w.cout ++ report_lines self.m_message w.g_number_of_allocations w.g_allocated_bytes := by
  simp [AllocationTracker.dtor, emit_report, store_tracking, reset_allocation_statistics,
    store_number_of_allocations_zero, store_allocated_bytes_zero, intercept_all_cout]

theorem ctor_idle (label : String) (w : World) (hidle : w.g_tracking = false) :
    AllocationTracker.ctor label w =
      .returned { m_message := label }
        { w with g_tracking := true, g_allocated_bytes := 0, g_number_of_allocations := 0 } := by
  simp [AllocationTracker.ctor, reset_allocation_statistics, store_number_of_allocations_zero,
    store_allocated_bytes_zero, store_tracking, hidle]

theorem dtor_final_state (self : AllocationTracker) (during_report : List Nat)
    (w : World) :
    (self.dtor during_report w).g_allocated_bytes = 0 ∧
      (self.dtor during_report w).g_number_of_allocations = 0 ∧
      (self.dtor during_report w).g_tracking = false := by
  simp [AllocationTracker.dtor, store_tracking, reset_allocation_statistics,
    store_number_of_allocations_zero, store_allocated_bytes_zero]

theorem size_mod_pos : 0 < SIZE_MOD := by simp [SIZE_MOD]

theorem ctor_idle_started (label : String) (w : World) (hidle : w.g_tracking = false) :
    AllocationTracker.ctor label w =
      .returned { m_message := label } (store_tracking true (reset_allocation_statistics w)) :=
  ctor_idle label w hidle

theorem tracked_scope_idle {ε : Type} (label : String) (body : World → World × Option ε)
    (handled : ε → Bool) (during_report : List Nat) (w : World)
    (hidle : w.g_tracking = false)
    (hcaught : ∀ e, (body (store_tracking true (reset_allocation_statistics w))).2 = some e →
      handled e = true) :
    tracked_scope label body handled during_report w =
      .returned (body (store_tracking true (reset_allocation_statistics w))).2
        (AllocationTracker.dtor { m_message := label } during_report
          (body (store_tracking true (reset_allocation_statistics w))).1) := by
  simp only [tracked_scope, ctor_idle_started label w hidle]
  split
  · rename_i h
    rw [h]
  · rename_i e h
    rw [h, if_pos (hcaught e h)]

/-- C1, as stated, fails: two requests of `2 ^ 63` bytes each have the arithmetic
sum `2 ^ 64`, but the session reports `0` allocated bytes, because
`g_allocated_bytes` is a `std::size_t` and wraps. -/
theorem session_bytes_wrap_counterexample :
    (tracked_scope "buffer" (allocating_body [2 ^ 63, 2 ^ 63]) (fun _ => true) []
        World.initial).world.cout =
        ["buffer", "  - Allocation type: dynamic", "  - Number of allocations: 2",
         "  - Allocated bytes: 0"] ∧
      [2 ^ 63, 2 ^ 63].sum = 2 ^ 64 ∧
      (tracked_scope "buffer" (allocating_body [2 ^ 63, 2 ^ 63]) (fun _ => true) []
        World.initial).world.cout ≠
        ["buffer", "  - Allocation type: dynamic", "  - Number of allocations: 2",
         "  - Allocated bytes: " ++ toString ([2 ^ 63, 2 ^ 63].sum)] := by
  decide

/-- C1 (amended): started from any state with `g_tracking = false`, whatever
requests `before` were intercepted earlier, a session around a non-empty list `L`
of fewer than `2 ^ 64` plain requests returns, and its report is the label,
"dynamic", the count `L.length` and the bytes `L.sum % 2 ^ 64`; the bytes are the
arithmetic sum itself whenever that sum is below `2 ^ 64`. -/
theorem session_reports_count_and_bytes (w : World) (before : List Nat) (label : String)
    (L during_report : List Nat) (handled : Unit → Bool) (hidle : w.g_tracking = false)
    (hne : L ≠ []) (hlen : L.length < SIZE_MOD) :
    ∃ w1, tracked_scope label (allocating_body L) handled during_report
        (intercept_all before w) = .returned none w1 ∧
      w1.cout = w.cout ++
        [label, "  - Allocation type: dynamic",
         "  - Number of allocations: " ++ toString L.length,
         "  - Allocated bytes: " ++ toString (L.sum % SIZE_MOD)] ∧
      (L.sum < SIZE_MOD → w1.cout = w.cout ++
        [label, "  - Allocation type: dynamic",
         "  - Number of allocations: " ++ toString L.length,
         "  - Allocated bytes: " ++ toString L.sum]) := by
  have hidle1 : (intercept_all before w).g_tracking = false := by
    rw [intercept_all_g_tracking]; exact hidle
  have hpos : 0 < L.length := List.length_pos.mpr hne
  refine ⟨_, tracked_scope_idle label _ handled during_report _ hidle1
    (fun e h => by simp [allocating_body] at h), ?_⟩
  have hcout : ∀ w0 : World, w0.cout = w.cout → w0.g_tracking = true →
      w0.g_allocated_bytes = 0 → w0.g_number_of_allocations = 0 →
      (AllocationTracker.dtor { m_message := label } during_report
        (allocating_body L w0).1).cout = w.cout ++
        [label, "  - Allocation type: dynamic",
         "  - Number of allocations: " ++ toString L.length,
         "  - Allocated bytes: " ++ toString (L.sum % SIZE_MOD)] := by
    intro w0 h0 h1 h2 h3
    rw [dtor_cout]
    simp only [allocating_body]
    rw [intercept_all_tracking L w0 h1 (h2 ▸ size_mod_pos) (h3 ▸ size_mod_pos)]
    simp [report_lines, Nat.mod_eq_of_lt hlen, hpos, h0, h2, h3]
  have hc := hcout
    { g_tracking := true, g_allocated_bytes := 0, g_number_of_allocations := 0,
      cout := (intercept_all before w).cout, cerr := (intercept_all before w).cerr,
      malloc_calls := (intercept_all before w).malloc_calls }
    (intercept_all_cout before w) rfl rfl rfl
  refine ⟨hc, ?_⟩
  intro hsum
  rw [← Nat.mod_eq_of_lt hsum]
  exact hc

/-- C1 (amended), at one request of 100 bytes after an untracked request of 7
bytes: count 1, bytes 100. -/
theorem session_reports_count_and_bytes_witness :
    ∃ w1, tracked_scope "buffer" (allocating_body [100]) (fun _ => true) []
        (intercept_all [7] World.initial) = .returned none w1 ∧
      w1.cout = World.initial.cout ++
        ["buffer", "  - Allocation type: dynamic",
         "  - Number of allocations: " ++ toString [100].length,
         "  - Allocated bytes: " ++ toString ([100].sum % SIZE_MOD)] ∧
      ([100].sum < SIZE_MOD → w1.cout = World.initial.cout ++
        ["buffer", "  - Allocation type: dynamic",
         "  - Number of allocations: " ++ toString [100].length,
         "  - Allocated bytes: " ++ toString [100].sum]) :=
  session_reports_count_and_bytes World.initial [7] "buffer" [100] [] (fun _ => true) rfl
    (by decide) (by decide)

/-! ## C2: the classification -/

/-- C2: a session started with `g_tracking = false` in which no request is
intercepted returns and reports the label and "static" only. In general the
destructor reports "dynamic" followed by the count and the bytes when the count
at its entry is positive, and "static" with no further line when it is zero. -/
theorem static_session_report (w : World) (label : String) (during_report : List Nat)
    (handled : Unit → Bool) (hidle : w.g_tracking = false) :
    (∃ w1, tracked_scope label (allocating_body []) handled during_report w =
        .returned none w1 ∧
      w1.cout = w.cout ++ [label, "  - Allocation type: static"]) ∧
    (∀ (self : AllocationTracker) (R : List Nat) (w0 : World),
      (0 < w0.g_number_of_allocations →
        (self.dtor R w0).cout = w0.cout ++
          [self.m_message, "  - Allocation type: dynamic",
           "  - Number of allocations: " ++ toString w0.g_number_of_allocations,
           "  - Allocated bytes: " ++ toString w0.g_allocated_bytes]) ∧
      (w0.g_number_of_allocations = 0 →
        (self.dtor R w0).cout = w0.cout ++
          [self.m_message, "  - Allocation type: static"])) := by
  constructor
  · refine ⟨_, tracked_scope_idle label _ handled during_report w hidle
      (fun e h => by simp [allocating_body] at h), ?_⟩
    rw [dtor_cout]
    simp [allocating_body, intercept_all, report_lines, store_tracking,
      reset_allocation_statistics, store_number_of_allocations_zero,
      store_allocated_bytes_zero]
  · intro self R w0
    constructor
    · intro hpos
      rw [dtor_cout]
      simp [report_lines, hpos]
    · intro hzero
      rw [dtor_cout]
      simp [report_lines, hzero]

/-- C2 at the session labelled "empty scope" started in the initial state. -/
theorem static_session_report_witness :
    (∃ w1, tracked_scope "empty scope" (allocating_body []) (fun _ => true) []
        World.initial = .returned none w1 ∧
      w1.cout = World.initial.cout ++ ["empty scope", "  - Allocation type: static"]) ∧
    (∀ (self : AllocationTracker) (R : List Nat) (w0 : World),
      (0 < w0.g_number_of_allocations →
        (self.dtor R w0).cout = w0.cout ++
          [self.m_message, "  - Allocation type: dynamic",
           "  - Number of allocations: " ++ toString w0.g_number_of_allocations,
           "  - Allocated bytes: " ++ toString w0.g_allocated_bytes]) ∧
      (w0.g_number_of_allocations = 0 →
        (self.dtor R w0).cout = w0.cout ++
          [self.m_message, "  - Allocation type: static"])) :=
  static_session_report World.initial "empty scope" [] (fun _ => true) rfl

/-! ## C3: the state after the destructor -/

/-- C3: for every state, live ones in particular, every value of the two
counters and every list of requests intercepted while the report is written, the
state after the destructor has `g_allocated_bytes = 0`,
`g_number_of_allocations = 0` and `g_tracking = false`. -/
theorem dtor_leaves_idle_zero (self : AllocationTracker) (during_report : List Nat)
    (w : World) :
    (self.dtor during_report w).g_allocated_bytes = 0 ∧
      (self.dtor during_report w).g_number_of_allocations = 0 ∧
      (self.dtor during_report w).g_tracking = false := by
  simp [AllocationTracker.dtor, store_tracking, reset_allocation_statistics,
    store_number_of_allocations_zero, store_allocated_bytes_zero]

/-! ## C4: the nesting guard -/

/-- C4: with `g_tracking = true` the constructor ends in `std::terminate`: no
tracker is returned, `g_tracking` is not stored to, no counter grows (both were
set to zero before the guard), nothing is written to `std::cout` and nothing is
forwarded to `malloc`; a block opened by it ends there, without the destructor
and so without a report. With `g_tracking = false` the constructor returns a
tracker holding the label, in a state with `g_tracking = true` and both counters
zero. -/
theorem ctor_nesting_guard (label : String) :
    (∀ w : World, w.g_tracking = true →
      ∃ w1, AllocationTracker.ctor label w = .terminated w1 ∧
        w1.g_tracking = w.g_tracking ∧
        w1.g_allocated_bytes ≤ w.g_allocated_bytes ∧
        w1.g_number_of_allocations ≤ w.g_number_of_allocations ∧
        w1.cout = w.cout ∧ w1.malloc_calls = w.malloc_calls ∧
        w1.cerr = w.cerr ++ ["Nested tracking not supported"] ∧
        ∀ (body : World → World × Option Unit) (handled : Unit → Bool) (R : List Nat),
          tracked_scope label body handled R w = .terminated w1) ∧
    (∀ w : World, w.g_tracking = false →
      ∃ w1, AllocationTracker.ctor label w = .returned { m_message := label } w1 ∧
        w1.g_tracking = true ∧ w1.g_allocated_bytes = 0 ∧
        w1.g_number_of_allocations = 0) := by
  constructor
  · intro w hlive
    refine ⟨{ w with g_allocated_bytes := 0, g_number_of_allocations := 0,
                     cerr := w.cerr ++ ["Nested tracking not supported"] }, ?_, rfl,
      Nat.zero_le _, Nat.zero_le _, rfl, rfl, rfl, ?_⟩
    · simp [AllocationTracker.ctor, reset_allocation_statistics,
        store_number_of_allocations_zero, store_allocated_bytes_zero, hlive]
    · intro body handled R
      simp [tracked_scope, AllocationTracker.ctor, reset_allocation_statistics,
        store_number_of_allocations_zero, store_allocated_bytes_zero, hlive]
  · intro w hidle
    exact ⟨_, ctor_idle label w hidle, rfl, rfl, rfl⟩

/-- C4 at a live session that has counted three requests, and at the initial
state. -/
theorem ctor_nesting_guard_witness :
    (∃ w1, AllocationTracker.ctor "inner"
        { World.initial with g_tracking := true, g_allocated_bytes := 30,
                             g_number_of_allocations := 3 } = .terminated w1 ∧
      w1.g_tracking = true ∧ w1.g_allocated_bytes ≤ 30 ∧ w1.g_number_of_allocations ≤ 3 ∧
      w1.cout = [] ∧ w1.malloc_calls = [] ∧
      w1.cerr = [] ++ ["Nested tracking not supported"] ∧
      ∀ (body : World → World × Option Unit) (handled : Unit → Bool) (R : List Nat),
        tracked_scope "inner" body handled R
          { World.initial with g_tracking := true, g_allocated_bytes := 30,
                               g_number_of_allocations := 3 } = .terminated w1) ∧
    (∃ w1, AllocationTracker.ctor "inner" World.initial =
        .returned { m_message := "inner" } w1 ∧
      w1.g_tracking = true ∧ w1.g_allocated_bytes = 0 ∧ w1.g_number_of_allocations = 0) :=
  ⟨(ctor_nesting_guard "inner").1
      { World.initial with g_tracking := true, g_allocated_bytes := 30,
                           g_number_of_allocations := 3 } rfl,
   (ctor_nesting_guard "inner").2 World.initial rfl⟩

/-! ## C5: the aligned entry point -/

/-- C5: for every size, alignment and state, `operator new(std::size_t,
std::align_val_t)` ends in `std::terminate`: it returns no block, forwards
nothing to `malloc`, leaves both counters and `g_tracking` as they were and
writes nothing to `std::cout`. -/
theorem operator_new_aligned_terminates (count al : Nat) (w : World) :
    ∃ w1, operator_new_aligned count al w = .terminated w1 ∧
      w1.malloc_calls = w.malloc_calls ∧
      w1.g_allocated_bytes = w.g_allocated_bytes ∧
      w1.g_number_of_allocations = w.g_number_of_allocations ∧
      w1.g_tracking = w.g_tracking ∧
      w1.cout = w.cout :=
  ⟨_, rfl, rfl, rfl, rfl, rfl, rfl⟩

/-! ## C6: allocations made while reporting -/

/-- C6: whatever requests are intercepted while the destructor writes its
report, the report shows the count and the bytes read at the entry of the destructor:
the output is the one produced when no request is intercepted meanwhile. -/
theorem dtor_report_ignores_reporting_requests (self : AllocationTracker)
    (during_report : List Nat) (w : World) :
    (self.dtor during_report w).cout =
        w.cout ++ report_lines self.m_message w.g_number_of_allocations w.g_allocated_bytes ∧
      (self.dtor during_report w).cout = (self.dtor [] w).cout := by
  rw [dtor_cout, dtor_cout]
  exact ⟨rfl, rfl⟩

/-! ## C8: the block around a body -/

/-- The handled path of the block evaluated: a body that makes one request of 32
bytes and throws "my exception", which has a handler. The block is left with that
exception after one report of count 1 and 32 bytes. -/
theorem caught_exception_scenario :
    tracked_scope "throwing" (fun w => (operator_new 32 w, some "my exception"))
        (fun x : String => decide (x ≠ "fatal")) [] World.initial =
      .returned (some "my exception")
        { g_tracking := false, g_allocated_bytes := 0, g_number_of_allocations := 0,
          cout := ["throwing", "  - Allocation type: dynamic",
                   "  - Number of allocations: 1", "  - Allocated bytes: 32"],
          cerr := [], malloc_calls := [32] } := by
  decide

/-! ## C9: the order of the statements of the destructor -/

/-- C9, as stated, fails: in a live session with counters 1 and 100, the
destructor does not store to `g_tracking` before it writes the report, and a
request of 8 bytes intercepted while the report is written is counted:
right after the report `g_tracking` is still true and the counters are 108 and 2. -/
theorem dtor_order_counterexample :
    (AllocationTracker.dtor_trace { m_message := "scope" } [8]
        { World.initial with g_tracking := true, g_allocated_bytes := 100,
                             g_number_of_allocations := 1 }).map Prod.fst ≠
      [.load_number_of_allocations, .load_allocated_bytes, .store_tracking, .write_report,
       .store_allocated_bytes, .store_number_of_allocations] ∧
    (state_after .write_report
        (AllocationTracker.dtor_trace { m_message := "scope" } [8]
          { World.initial with g_tracking := true, g_allocated_bytes := 100,
                               g_number_of_allocations := 1 })).map
        (fun s => (s.g_tracking, s.g_allocated_bytes, s.g_number_of_allocations)) =
      some (true, 108, 2) := by
  decide

/-- C9 (amended): the destructor reads the two counters, writes the report,
stores zero to the two counters and only then stores false to `g_tracking`; the
last state of this trace is the state the destructor returns. In a live session
`g_tracking` is still true right after the report and right after the reset, the
requests intercepted while the report is written have been added to both
counters (modulo `2 ^ 64`), the report shows the values read at entry, and the
final state has both counters zero and `g_tracking` false. -/
theorem dtor_statement_order (self : AllocationTracker) (during_report : List Nat)
    (w : World) (hlive : w.g_tracking = true) (hb : w.g_allocated_bytes < SIZE_MOD)
    (hn : w.g_number_of_allocations < SIZE_MOD) :
    (self.dtor_trace during_report w).map Prod.fst =
      [.load_number_of_allocations, .load_allocated_bytes, .write_report,
       .store_allocated_bytes, .store_number_of_allocations, .store_tracking] ∧
    ((self.dtor_trace during_report w).getLast?).map Prod.snd =
      some (self.dtor during_report w) ∧
    (∃ wr, state_after .write_report (self.dtor_trace during_report w) = some wr ∧
      wr.g_tracking = true ∧
      wr.g_allocated_bytes = (w.g_allocated_bytes + during_report.sum) % SIZE_MOD ∧
      wr.g_number_of_allocations =
        (w.g_number_of_allocations + during_report.length) % SIZE_MOD ∧
      wr.cout = w.cout ++
        report_lines self.m_message w.g_number_of_allocations w.g_allocated_bytes) ∧
    (∃ wz, state_after .store_number_of_allocations (self.dtor_trace during_report w) =
        some wz ∧
      wz.g_tracking = true ∧ wz.g_allocated_bytes = 0 ∧ wz.g_number_of_allocations = 0) ∧
    (∃ wf, state_after .store_tracking (self.dtor_trace during_report w) = some wf ∧
      wf = self.dtor during_report w ∧
      wf.g_tracking = false ∧ wf.g_allocated_bytes = 0 ∧ wf.g_number_of_allocations = 0) := by
  refine ⟨rfl, rfl, ⟨_, rfl, ?_, ?_, ?_, ?_⟩, ⟨_, rfl, ?_, rfl, rfl⟩, ⟨_, rfl, rfl, rfl, rfl, rfl⟩⟩
  · simp [emit_report, intercept_all_g_tracking, hlive]
  · simp [emit_report, intercept_all_tracking during_report w hlive hb hn]
  · simp [emit_report, intercept_all_tracking during_report w hlive hb hn]
  · simp [emit_report, intercept_all_cout]
  · simp [store_number_of_allocations_zero, store_allocated_bytes_zero, emit_report,
      intercept_all_g_tracking, hlive]

/-- C9 (amended) at a live session with counters 1 and 100 and one request of 8
bytes intercepted while the report is written. -/
theorem dtor_statement_order_witness :
    (AllocationTracker.dtor_trace { m_message := "scope" } [8]
        { World.initial with g_tracking := true, g_allocated_bytes := 100,
                             g_number_of_allocations := 1 }).map Prod.fst =
      [.load_number_of_allocations, .load_allocated_bytes, .write_report,
       .store_allocated_bytes, .store_number_of_allocations, .store_tracking] ∧
    ((AllocationTracker.dtor_trace { m_message := "scope" } [8]
        { World.initial with g_tracking := true, g_allocated_bytes := 100,
                             g_number_of_allocations := 1 }).getLast?).map Prod.snd =
      some (AllocationTracker.dtor { m_message := "scope" } [8]
        { World.initial with g_tracking := true, g_allocated_bytes := 100,
                             g_number_of_allocations := 1 }) ∧
    (∃ wr, state_after .write_report
        (AllocationTracker.dtor_trace { m_message := "scope" } [8]
          { World.initial with g_tracking := true, g_allocated_bytes := 100,
                               g_number_of_allocations := 1 }) = some wr ∧
      wr.g_tracking = true ∧
      wr.g_allocated_bytes = (100 + [8].sum) % SIZE_MOD ∧
      wr.g_number_of_allocations = (1 + [8].length) % SIZE_MOD ∧
      wr.cout = [] ++ report_lines "scope" 1 100) ∧
    (∃ wz, state_after .store_number_of_allocations
        (AllocationTracker.dtor_trace { m_message := "scope" } [8]
          { World.initial with g_tracking := true, g_allocated_bytes := 100,
                               g_number_of_allocations := 1 }) = some wz ∧
      wz.g_tracking = true ∧ wz.g_allocated_bytes = 0 ∧ wz.g_number_of_allocations = 0) ∧
    (∃ wf, state_after .store_tracking
        (AllocationTracker.dtor_trace { m_message := "scope" } [8]
          { World.initial with g_tracking := true, g_allocated_bytes := 100,
                               g_number_of_allocations := 1 }) = some wf ∧
      wf = AllocationTracker.dtor { m_message := "scope" } [8]
        { World.initial with g_tracking := true, g_allocated_bytes := 100,
                             g_number_of_allocations := 1 } ∧
      wf.g_tracking = false ∧ wf.g_allocated_bytes = 0 ∧ wf.g_number_of_allocations = 0) :=
  dtor_statement_order { m_message := "scope" } [8]
    { World.initial with g_tracking := true, g_allocated_bytes := 100,
                         g_number_of_allocations := 1 } rfl (by decide) (by decide)

/-! ## C10: the idle-state invariant -/

theorem operator_new_steps_invariant (count : Nat) (w : World) (hw : idle_invariant w) :
    (∀ s ∈ operator_new_steps count w, idle_invariant s) ∧
      idle_invariant (operator_new count w) := by
  unfold operator_new_steps operator_new
  by_cases h : w.g_tracking = true
  · simp [h, idle_invariant, malloc, incr_number_of_allocations, add_allocated_bytes]
  · have h0 : w.g_tracking = false := by simpa using h
    have hz := hw h0
    simp [h0, idle_invariant, malloc, hz]

theorem intercept_all_steps_invariant (sizes : List Nat) (w : World)
    (hw : idle_invariant w) :
    (∀ s ∈ intercept_all_steps sizes w, idle_invariant s) ∧
      idle_invariant (intercept_all sizes w) := by
  induction sizes generalizing w with
  | nil => exact ⟨by simp [intercept_all_steps], hw⟩
  | cons count rest ih =>
    have h1 := operator_new_steps_invariant count w hw
    have h2 := ih (operator_new count w) h1.2
    refine ⟨?_, h2.2⟩
    intro s hs
    simp only [intercept_all_steps, List.mem_append] at hs
    rcases hs with hs | hs
    · exact h1.1 s hs
    · exact h2.1 s hs

theorem ctor_steps_invariant (label : String) (w : World) (hw : idle_invariant w) :
    (∀ s ∈ AllocationTracker.ctor_steps w, idle_invariant s) ∧
      (∀ t w1, AllocationTracker.ctor label w = .returned t w1 → idle_invariant w1) := by
  by_cases h : w.g_tracking = true
  · constructor
    · simp [AllocationTracker.ctor_steps, store_number_of_allocations_zero,
        store_allocated_bytes_zero, h, idle_invariant]
    · intro t w1 hret
      simp [AllocationTracker.ctor, reset_allocation_statistics,
        store_number_of_allocations_zero, store_allocated_bytes_zero, h] at hret
  · have h0 : w.g_tracking = false := by simpa using h
    have hz := hw h0
    constructor
    · simp [AllocationTracker.ctor_steps, store_number_of_allocations_zero,
        store_allocated_bytes_zero, store_tracking, h0, idle_invariant, hz]
    · intro t w1 hret
      rw [ctor_idle label w h0] at hret
      cases hret
      simp [idle_invariant]

theorem dtor_steps_invariant (self : AllocationTracker) (during_report : List Nat)
    (w : World) (hw : idle_invariant w) :
    (∀ s ∈ self.dtor_steps during_report w, idle_invariant s) ∧
      idle_invariant (self.dtor during_report w) := by
  have h1 := intercept_all_steps_invariant during_report w hw
  have hfin := dtor_final_state self during_report w
  refine ⟨?_, fun _ => ⟨hfin.1, hfin.2.1⟩⟩
  intro s hs
  simp only [AllocationTracker.dtor_steps, List.mem_append] at hs
  rcases hs with hs | hs
  · exact h1.1 s hs
  · have hrep := h1.2
    simp only [AllocationTracker.dtor_trace, List.map_cons, List.map_nil, List.mem_cons,
      List.mem_singleton, List.not_mem_nil, or_false] at hs
    rcases hs with rfl | rfl | rfl | rfl | rfl | rfl
    · exact hw
    · exact hw
    · intro ht
      exact hrep ht
    · intro ht
      have := hrep ht
      simp [store_allocated_bytes_zero, emit_report, this]
    · intro _
      simp [store_allocated_bytes_zero, store_number_of_allocations_zero]
    · intro _
      simp [store_allocated_bytes_zero, store_number_of_allocations_zero, store_tracking]

theorem visited_invariant (ops : List Op) (w : World) (hw : idle_invariant w) :
    ∀ s ∈ visited w ops, idle_invariant s := by
  induction ops generalizing w with
  | nil => simp [visited]
  | cons op rest ih =>
    intro s hs
    cases op with
    | Start label =>
      have h1 := ctor_steps_invariant label w hw
      simp only [visited, List.mem_append] at hs
      rcases hs with hs | hs
      · exact h1.1 s hs
      · cases hc : AllocationTracker.ctor label w with
        | returned t w1 =>
          rw [hc] at hs
          exact ih w1 (h1.2 t w1 hc) s hs
        | terminated w1 =>
          rw [hc] at hs
          simp at hs
    | Intercept count =>
      have h1 := operator_new_steps_invariant count w hw
      simp only [visited, List.mem_append] at hs
      rcases hs with hs | hs
      · exact h1.1 s hs
      · exact ih _ h1.2 s hs
    | Stop self during_report =>
      have h1 := dtor_steps_invariant self during_report w hw
      simp only [visited, List.mem_append] at hs
      rcases hs with hs | hs
      · exact h1.1 s hs
      · exact ih _ h1.2 s hs

/-- C10: in every state passed through, statement by statement, by a sequence of
constructor, plain `operator new` and destructor calls run from the initial
state (destructors only while `g_tracking` is set), `g_tracking = false` implies
that both counters are zero; and a plain request made in such a state leaves
`g_tracking` and both counters as they are. -/
theorem idle_state_invariant (ops : List Op) (s : World)
    (_hadm : admissible World.initial ops = true)
    (hs : s ∈ World.initial :: visited World.initial ops)
    (hidle : s.g_tracking = false) :
    (s.g_allocated_bytes = 0 ∧ s.g_number_of_allocations = 0) ∧
    ∀ count : Nat,
      (operator_new count s).g_tracking = s.g_tracking ∧
      (operator_new count s).g_allocated_bytes = s.g_allocated_bytes ∧
      (operator_new count s).g_number_of_allocations = s.g_number_of_allocations := by
  have hinit : idle_invariant World.initial := fun _ => ⟨rfl, rfl⟩
  constructor
  · rcases List.mem_cons.mp hs with rfl | hs
    · exact ⟨rfl, rfl⟩
    · exact visited_invariant ops World.initial hinit s hs hidle
  · intro count
    simp [operator_new, hidle, malloc]

/-- C10 at the state left by a session around one request of 10 bytes, with a
request of 8 bytes during the report and a request of 5 bytes after it. -/
theorem idle_state_invariant_witness :
    ((operator_new 5 (AllocationTracker.dtor { m_message := "a" } [8]
        (operator_new 10 (store_tracking true World.initial)))).g_allocated_bytes = 0 ∧
      (operator_new 5 (AllocationTracker.dtor { m_message := "a" } [8]
        (operator_new 10 (store_tracking true World.initial)))).g_number_of_allocations = 0) ∧
    ∀ count : Nat,
      (operator_new count (operator_new 5 (AllocationTracker.dtor { m_message := "a" } [8]
        (operator_new 10 (store_tracking true World.initial))))).g_tracking =
        (operator_new 5 (AllocationTracker.dtor { m_message := "a" } [8]
          (operator_new 10 (store_tracking true World.initial)))).g_tracking ∧
      (operator_new count (operator_new 5 (AllocationTracker.dtor { m_message := "a" } [8]
        (operator_new 10 (store_tracking true World.initial))))).g_allocated_bytes =
        (operator_new 5 (AllocationTracker.dtor { m_message := "a" } [8]
          (operator_new 10 (store_tracking true World.initial)))).g_allocated_bytes ∧
      (operator_new count (operator_new 5 (AllocationTracker.dtor { m_message := "a" } [8]
        (operator_new 10 (store_tracking true World.initial))))).g_number_of_allocations =
        (operator_new 5 (AllocationTracker.dtor { m_message := "a" } [8]
          (operator_new 10 (store_tracking true World.initial)))).g_number_of_allocations :=
  idle_state_invariant
    [.Start "a", .Intercept 10, .Stop { m_message := "a" } [8], .Intercept 5]
    (operator_new 5 (AllocationTracker.dtor { m_message := "a" } [8]
      (operator_new 10 (store_tracking true World.initial))))
    (by decide) (by decide) (by decide)

/-! ## C7: two threads -/

theorem thread_step_tracking (t : Thread) (w : World) (hlive : w.g_tracking = true) :
    (t.step w).2.g_tracking = true ∧ (t.step w).2.cout = w.cout ∧
    ((t.step w).2.g_allocated_bytes + (t.step w).1.bytes_left) % SIZE_MOD =
      (w.g_allocated_bytes + t.bytes_left) % SIZE_MOD ∧
    ((t.step w).2.g_number_of_allocations + (t.step w).1.count_left) % SIZE_MOD =
      (w.g_number_of_allocations + t.count_left) % SIZE_MOD ∧
    (w.g_allocated_bytes < SIZE_MOD → (t.step w).2.g_allocated_bytes < SIZE_MOD) ∧
    (w.g_number_of_allocations < SIZE_MOD →
      (t.step w).2.g_number_of_allocations < SIZE_MOD) := by
  rcases t with ⟨cur, pend⟩
  cases cur with
  | nil =>
    cases pend with
    | nil => simp [Thread.step, hlive]
    | cons count rest =>
      simp [Thread.step, hlive, Thread.bytes_left, Thread.count_left, Nat.add_comm]
  | cons i rest =>
    cases i with
    | add_bytes count =>
      refine ⟨by simp [Thread.step, add_allocated_bytes, hlive],
        by simp [Thread.step, add_allocated_bytes], ?_, by simp [Thread.step, add_allocated_bytes,
          Thread.count_left], fun _ => ?_, fun h => by simpa [Thread.step, add_allocated_bytes] using h⟩
      · simp [Thread.step, add_allocated_bytes, Thread.bytes_left, Nat.add_assoc]
      · simpa [Thread.step, add_allocated_bytes] using Nat.mod_lt _ size_mod_pos
    | incr_count =>
      refine ⟨by simp [Thread.step, incr_number_of_allocations, hlive],
        by simp [Thread.step, incr_number_of_allocations],
        by simp [Thread.step, incr_number_of_allocations, Thread.bytes_left], ?_,
        fun h => by simpa [Thread.step, incr_number_of_allocations] using h, fun _ => ?_⟩
      · simp [Thread.step, incr_number_of_allocations, Thread.count_left, Nat.add_assoc]
      · simpa [Thread.step, incr_number_of_allocations] using Nat.mod_lt _ size_mod_pos
    | call_malloc count =>
      simp [Thread.step, malloc, hlive, Thread.bytes_left, Thread.count_left]

theorem run_schedule_tracking (schedule : List Bool) (s : Threads)
    (hlive : s.world.g_tracking = true) (hb : s.world.g_allocated_bytes < SIZE_MOD)
    (hn : s.world.g_number_of_allocations < SIZE_MOD) :
    (run_schedule schedule s).world.g_tracking = true ∧
    (run_schedule schedule s).world.cout = s.world.cout ∧
    ((run_schedule schedule s).world.g_allocated_bytes +
        (run_schedule schedule s).main.bytes_left +
        (run_schedule schedule s).spawned.bytes_left) % SIZE_MOD =
      (s.world.g_allocated_bytes + s.main.bytes_left + s.spawned.bytes_left) % SIZE_MOD ∧
    ((run_schedule schedule s).world.g_number_of_allocations +
        (run_schedule schedule s).main.count_left +
        (run_schedule schedule s).spawned.count_left) % SIZE_MOD =
      (s.world.g_number_of_allocations + s.main.count_left + s.spawned.count_left)
        % SIZE_MOD ∧
    (run_schedule schedule s).world.g_allocated_bytes < SIZE_MOD ∧
    (run_schedule schedule s).world.g_number_of_allocations < SIZE_MOD := by
  induction schedule generalizing s with
  | nil => exact ⟨hlive, rfl, rfl, rfl, hb, hn⟩
  | cons b rest ih =>
    cases b with
    | false =>
      obtain ⟨h1, h2, h3, h4, h5, h6⟩ := thread_step_tracking s.main s.world hlive
      obtain ⟨i1, i2, i3, i4, i5, i6⟩ :=
        ih { s with main := (s.main.step s.world).1, world := (s.main.step s.world).2 }
          h1 (h5 hb) (h6 hn)
      refine ⟨i1, i2.trans h2, i3.trans ?_, i4.trans ?_, i5, i6⟩
      · exact Nat.ModEq.add_right s.spawned.bytes_left h3
      · exact Nat.ModEq.add_right s.spawned.count_left h4
    | true =>
      obtain ⟨h1, h2, h3, h4, h5, h6⟩ := thread_step_tracking s.spawned s.world hlive
      obtain ⟨i1, i2, i3, i4, i5, i6⟩ :=
        ih { s with spawned := (s.spawned.step s.world).1, world := (s.spawned.step s.world).2 }
          h1 (h5 hb) (h6 hn)
      refine ⟨i1, i2.trans h2, i3.trans ?_, i4.trans ?_, i5, i6⟩
      · have := Nat.ModEq.add_right s.main.bytes_left h3
        simpa [Nat.ModEq, Nat.add_right_comm] using this
      · have := Nat.ModEq.add_right s.main.count_left h4
        simpa [Nat.ModEq, Nat.add_right_comm] using this

theorem run_schedule_append (l1 l2 : List Bool) (s : Threads) :
    run_schedule (l1 ++ l2) s = run_schedule l2 (run_schedule l1 s) := by
  induction l1 generalizing s with
  | nil => rfl
  | cons b rest ih => cases b <;> simp [run_schedule, ih]

theorem run_spawned_alone (sizes : List Nat) (s : Threads)
    (hlive : s.world.g_tracking = true) (hs : s.spawned = Thread.of_requests sizes) :
    (run_schedule (List.replicate (4 * sizes.length) true) s).spawned = Thread.of_requests [] ∧
    (run_schedule (List.replicate (4 * sizes.length) true) s).main = s.main ∧
    (run_schedule (List.replicate (4 * sizes.length) true) s).world.g_tracking = true := by
  induction sizes generalizing s with
  | nil => exact ⟨hs, rfl, hlive⟩
  | cons count rest ih =>
    have hrep : List.replicate (4 * (count :: rest).length) true =
        true :: true :: true :: true :: List.replicate (4 * rest.length) true := by
      simp [Nat.mul_add, List.replicate_succ]
    rw [hrep]
    simp only [run_schedule, hs, Thread.of_requests, Thread.step, hlive, if_true,
      add_allocated_bytes, incr_number_of_allocations, malloc]
    exact ih _ rfl rfl

theorem run_main_alone (sizes : List Nat) (s : Threads)
    (hlive : s.world.g_tracking = true) (hs : s.main = Thread.of_requests sizes) :
    (run_schedule (List.replicate (4 * sizes.length) false) s).main = Thread.of_requests [] ∧
    (run_schedule (List.replicate (4 * sizes.length) false) s).spawned = s.spawned ∧
    (run_schedule (List.replicate (4 * sizes.length) false) s).world.g_tracking = true := by
  induction sizes generalizing s with
  | nil => exact ⟨hs, rfl, hlive⟩
  | cons count rest ih =>
    have hrep : List.replicate (4 * (count :: rest).length) false =
        false :: false :: false :: false :: List.replicate (4 * rest.length) false := by
      simp [Nat.mul_add, List.replicate_succ]
    rw [hrep]
    simp only [run_schedule, hs, Thread.of_requests, Thread.step, hlive, if_true,
      add_allocated_bytes, incr_number_of_allocations, malloc]
    exact ih _ rfl rfl

theorem thread_finished_left (t : Thread) (h : t.finished = true) :
    t.bytes_left = 0 ∧ t.count_left = 0 := by
  rcases t with ⟨cur, pend⟩
  simp only [Thread.finished, Bool.and_eq_true, List.isEmpty_iff] at h
  obtain ⟨h1, h2⟩ := h
  subst h1 h2
  exact ⟨rfl, rfl⟩

/-- C7, as stated, fails: with one request of `2 ^ 63` bytes in each thread the
sum of the sizes is `2 ^ 64`, but the session reports `0` allocated bytes. -/
theorem concurrent_bytes_wrap_counterexample :
    (concurrent_session "threads" [2 ^ 63] [2 ^ 63]
        [true, false, true, false, true, false, true, false] [] World.initial).map
        (fun r => r.world.cout) =
      some ["threads", "  - Allocation type: dynamic", "  - Number of allocations: 2",
            "  - Allocated bytes: 0"] ∧
    [2 ^ 63].sum + [2 ^ 63].sum = 2 ^ 64 ∧
    (concurrent_session "threads" [2 ^ 63] [2 ^ 63]
        [true, false, true, false, true, false, true, false] [] World.initial).map
        (fun r => r.world.cout) ≠
      some ["threads", "  - Allocation type: dynamic",
            "  - Number of allocations: " ++ toString ([2 ^ 63].length + [2 ^ 63].length),
            "  - Allocated bytes: " ++ toString ([2 ^ 63].sum + [2 ^ 63].sum)] := by
  decide

/-- C7 (amended): for every pair of request lists, every schedule of the atomic
steps of the two threads under which both threads finish, and every start state
with `g_tracking = false`, the session returns and its report is the one for the
count `(|s1| + |s2|) % 2 ^ 64` and the bytes `(sum s1 + sum s2) % 2 ^ 64`,
whatever the schedule; these are `|s1| + |s2|` and `sum s1 + sum s2` whenever
those are below `2 ^ 64`. Such a schedule always exists. -/
theorem concurrent_session_report (w : World) (label : String) (s1 s2 : List Nat)
    (schedule : List Bool) (during_report : List Nat) (hidle : w.g_tracking = false)
    (hdone : (concurrent_session label s1 s2 schedule during_report w).isSome = true) :
    (∃ w1, concurrent_session label s1 s2 schedule during_report w =
        some (.returned () w1) ∧
      w1.cout = w.cout ++
        report_lines label ((s1.length + s2.length) % SIZE_MOD)
          ((s1.sum + s2.sum) % SIZE_MOD) ∧
      (0 < s1.length + s2.length → s1.length + s2.length < SIZE_MOD →
        s1.sum + s2.sum < SIZE_MOD →
        w1.cout = w.cout ++
          [label, "  - Allocation type: dynamic",
           "  - Number of allocations: " ++ toString (s1.length + s2.length),
           "  - Allocated bytes: " ++ toString (s1.sum + s2.sum)])) ∧
    (∃ complete, (concurrent_session label s1 s2 complete during_report w).isSome = true) := by
  have hctor := ctor_idle label w hidle
  constructor
  · obtain ⟨i1, i2, i3, i4, i5, i6⟩ := run_schedule_tracking schedule
      { main := Thread.of_requests s2, spawned := Thread.of_requests s1,
        world := { w with g_tracking := true, g_allocated_bytes := 0,
                          g_number_of_allocations := 0 } }
      rfl size_mod_pos size_mod_pos
    simp only [concurrent_session, hctor] at hdone ⊢
    have e3 : ((Thread.of_requests s2).bytes_left = s2.sum) ∧
        ((Thread.of_requests s1).bytes_left = s1.sum) ∧
        ((Thread.of_requests s2).count_left = s2.length) ∧
        ((Thread.of_requests s1).count_left = s1.length) := by
      simp [Thread.bytes_left, Thread.count_left, Thread.of_requests]
    rw [e3.1, e3.2.1] at i3
    rw [e3.2.2.1, e3.2.2.2] at i4
    simp only [Nat.zero_add] at i2 i3 i4
    generalize run_schedule schedule
      { main := Thread.of_requests s2, spawned := Thread.of_requests s1,
        world := { w with g_tracking := true, g_allocated_bytes := 0,
                          g_number_of_allocations := 0 } } = S at i1 i2 i3 i4 i5 i6 hdone ⊢
    split at hdone
    · rename_i hfin
      rw [if_pos hfin]
      simp only [Bool.and_eq_true] at hfin
      obtain ⟨m1, m2⟩ := thread_finished_left _ hfin.1
      obtain ⟨p1, p2⟩ := thread_finished_left _ hfin.2
      simp only [m1, p1, Nat.add_zero, Nat.mod_eq_of_lt i5] at i3
      simp only [m2, p2, Nat.add_zero, Nat.mod_eq_of_lt i6] at i4
      have hcout : (AllocationTracker.dtor { m_message := label } during_report S.world).cout =
          w.cout ++ report_lines label ((s1.length + s2.length) % SIZE_MOD)
            ((s1.sum + s2.sum) % SIZE_MOD) := by
        rw [dtor_cout, i2, i3, i4, Nat.add_comm s2.sum, Nat.add_comm s2.length]
      refine ⟨_, rfl, hcout, ?_⟩
      intro hpos hlen hsum
      rw [hcout, Nat.mod_eq_of_lt hlen, Nat.mod_eq_of_lt hsum]
      simp [report_lines, hpos]
    · simp at hdone
  · refine ⟨List.replicate (4 * s1.length) true ++ List.replicate (4 * s2.length) false, ?_⟩
    simp only [concurrent_session, hctor, run_schedule_append]
    obtain ⟨a1, a2, a3⟩ := run_spawned_alone s1
      { main := Thread.of_requests s2, spawned := Thread.of_requests s1,
        world := { w with g_tracking := true, g_allocated_bytes := 0,
                          g_number_of_allocations := 0 } } rfl rfl
    obtain ⟨b1, b2, _⟩ := run_main_alone s2 _ a3 a2
    rw [if_pos]
    · rfl
    · rw [b1, b2, a1]
      rfl

/-- C7 (amended) at three requests of 10 bytes in the spawned thread and two of
20 bytes in the main thread, the steps of the two threads alternating. -/
theorem concurrent_session_report_witness :
    (∃ w1, concurrent_session "threads" [10, 10, 10] [20, 20]
        [true, false, true, false, true, false, true, false, true, false, true, false,
         true, false, true, false, true, true, true, true] [] World.initial =
        some (.returned () w1) ∧
      w1.cout = World.initial.cout ++
        report_lines "threads" (([10, 10, 10].length + [20, 20].length) % SIZE_MOD)
          (([10, 10, 10].sum + [20, 20].sum) % SIZE_MOD) ∧
      (0 < [10, 10, 10].length + [20, 20].length →
        [10, 10, 10].length + [20, 20].length < SIZE_MOD →
        [10, 10, 10].sum + [20, 20].sum < SIZE_MOD →
        w1.cout = World.initial.cout ++
          ["threads", "  - Allocation type: dynamic",
           "  - Number of allocations: " ++ toString ([10, 10, 10].length + [20, 20].length),
           "  - Allocated bytes: " ++ toString ([10, 10, 10].sum + [20, 20].sum)])) ∧
    (∃ complete, (concurrent_session "threads" [10, 10, 10] [20, 20] complete []
        World.initial).isSome = true) :=
  concurrent_session_report World.initial "threads" [10, 10, 10] [20, 20]
    [true, false, true, false, true, false, true, false, true, false, true, false,
     true, false, true, false, true, true, true, true] [] rfl (by decide)

/-- Scenario 3 of the specification evaluated: three requests of 10 bytes in the
spawned thread, two of 20 bytes in the main thread, steps alternating. -/
theorem concurrent_scenario_report : (concurrent_session "threads" [10, 10, 10] [20, 20]
    [true, false, true, false, true, false, true, false, true, false, true, false,
     true, false, true, false, true, true, true, true] [] World.initial).map
    (fun r => r.world.cout) =
    some ["threads", "  - Allocation type: dynamic", "  - Number of allocations: 5",
          "  - Allocated bytes: 70"] := by decide

end DynamicMemory
